import Mathlib

/-!
Verification of the gr-limesdr device registry (`device_handler`).

The data model is translated from `src/lib/common/device_handler.h`:
the nested `struct device` (lines 48-60), the cached device list buffer of
20 entries (line 63), the record vector `device_vector` (line 65) and the
`close_flag` guard (line 67).  The bodies of the registry operations live in
`device_handler.cc`, which is not part of the sources at hand; each operation
below is therefore modelled from the specification's contracts, as stated in
its doc comment.  Driver interaction (physical open/close) and diagnostics are
made observable through an event trace returned by every operation.
-/

/-- Diagnostics raised by registry operations, from the spec's error taxonomy
(section 7): discovery failure, open failure, double attach, mode conflict. -/
inductive Diag where
  | DiscoveryError : Diag
  | OpenError : Diag
  | DoubleAttachError : Diag
  | ModeConflictWarning : Diag
  deriving DecidableEq

/-- Observable effects of a registry operation: invocations of the external
driver's physical open and close primitives (tagged with the device
identifier), and raised diagnostics. -/
inductive Event where
  | physOpen : String → Event
  | physClose : String → Event
  | diag : Diag → Event
  deriving DecidableEq

/-- One device record, translated from `struct device` in the header
(lines 48-60).  The C++ `lms_device_t* address` (NULL when the device is not
open) is modelled as a Bool: `true` means the physical handle is open.  Chip
modes default to `-1` (unset) as in the source; filenames default to empty. -/
structure device where
  address : Bool := false
  source_flag : Bool := false
  sink_flag : Bool := false
  source_chip_mode : Int := -1
  sink_chip_mode : Int := -1
  source_filename : String := ""
  sink_filename : String := ""
  deriving DecidableEq

/-- A freshly constructed record: all fields at their header defaults. -/
def device.init : device := {}

/-- Number of endpoint attachments a record currently holds. -/
def device.attachCount (r : device) : Nat :=
  (if r.source_flag then 1 else 0) + (if r.sink_flag then 1 else 0)

/-- Registry state, translated from the private fields of `device_handler`
(header lines 40-67): the lazily cached device list (`list`, `list_read`),
the record vector `device_vector` (one slot per discovered device; the slot
index is the device number), and the guard `close_flag` that makes
`close_all_devices` run once.  The derived counters `open_devices` and
`device_count` of the header are not stored; they are recomputed from the
vector where needed. -/
structure device_handler where
  list_read : Bool := false
  list : List String := []
  device_vector : List device := []
  close_flag : Bool := false
  deriving DecidableEq

/-- Capacity of the discovery buffer, from the header (line 63):
`lms_info_str_t* list = new lms_info_str_t[20];`. -/
def listBufferCapacity : Nat := 20

namespace device_handler

/-- Number of records whose physical handle is currently open. -/
def openCount (s : device_handler) : Nat :=
  s.device_vector.countP (fun r => r.address)

/-- Resolve a serial against the cached device list, yielding its device
number (the index used by every other operation). -/
def findSerial (s : device_handler) (serial : String) : Option Nat :=
  s.list.findIdx? (fun x => x == serial)

/-- Physical-close events for every open record, one per record, tagged with
the identifier stored at the record's slot of the device list. -/
def closeEvents : List String → List device → List Event
  | _, [] => []
  | [], _ :: _ => []
  | id :: ids, r :: rs =>
    (if r.address then [Event.physClose id] else []) ++ closeEvents ids rs

/-- Modelled from the spec: the body of `device_handler::close_all_devices`
is in the repository's `device_handler.cc`, which is absent from the sources;
only its declaration (header line 117) and the guard `close_flag` (line 67)
are in the header.  Spec closeAll(): iterates all records, force-closes each
open physical handle regardless of attachment state, clears the registry;
guarded by `close_flag` so the hardware-closing side effect runs at most once
per armed cycle - subsequent calls are no-ops until the registry is reused. -/
def close_all_devices (s : device_handler) : device_handler × List Event :=
  if s.close_flag then (s, [])
  else
    ({ s with device_vector := s.device_vector.map (fun _ => device.init),
              close_flag := true },
     closeEvents s.list s.device_vector)

/-- Modelled from the spec: the body of `device_handler::error` is in the
absent `device_handler.cc`; the header (line 89) documents it as printing the
device error and closing all devices.  The printing is not modelled. -/
def error (s : device_handler) : device_handler × List Event :=
  close_all_devices s

/-- Result of an open request. -/
inductive OpenResult where
  | ok : Nat → OpenResult
  | openError : OpenResult
  | notFound : OpenResult
  deriving DecidableEq

/-- Modelled from the spec: the body of `device_handler::open_device` is in
the absent `device_handler.cc`; only its declaration (header line 103) is in
the header.  Spec open(identifier): resolve the serial against the discovered
list to a device number; if a record already exists and is open for that
identifier, return it unchanged (no duplicate hardware session); otherwise
invoke the external driver's open primitive and record the open handle (which
re-arms the close-all guard, as the registry is being reused); if the driver
open fails, run the full close-all-devices cleanup and report `OpenError`.
The driver is an oracle `drv` saying whether a physical open succeeds. -/
def open_device (drv : String → Bool) (s : device_handler) (serial : String) :
    OpenResult × device_handler × List Event :=
  match s.findSerial serial with
  | none => (OpenResult.notFound, s, [Event.diag Diag.DiscoveryError])
  | some n =>
    match s.device_vector[n]? with
    | none => (OpenResult.notFound, s, [Event.diag Diag.DiscoveryError])
    | some r =>
      if r.address then
        (OpenResult.ok n, s, [])
      else if drv serial then
        (OpenResult.ok n,
         { s with device_vector := s.device_vector.set n { r with address := true },
                  close_flag := false },
         [Event.physOpen serial])
      else
        let p := s.error
        (OpenResult.openError, p.1, p.2 ++ [Event.diag Diag.OpenError])

/-- Modelled from the spec: the body of `device_handler::close_device` is in
the absent `device_handler.cc`; only its declaration (header line 112) is in
the header, with block types source = 1, sink = 2.  Spec detach(record,
kind): clears the corresponding flag; if afterwards neither flag is set,
synchronously closes the physical handle via the external driver and removes
the record (the slot reverts to a fresh unopened record); detach on an
already-detached kind is a no-op. -/
def close_device (s : device_handler) (device_number : Nat) (block_type : Nat) :
    device_handler × List Event :=
  match s.device_vector[device_number]? with
  | none => (s, [])
  | some r =>
    if block_type = 1 then
      if r.source_flag then
        if r.sink_flag then
          ({ s with device_vector :=
               s.device_vector.set device_number { r with source_flag := false } }, [])
        else
          ({ s with device_vector := s.device_vector.set device_number device.init },
           if r.address then
             match s.list[device_number]? with
             | some id => [Event.physClose id]
             | none => []
           else [])
      else (s, [])
    else if block_type = 2 then
      if r.sink_flag then
        if r.source_flag then
          ({ s with device_vector :=
               s.device_vector.set device_number { r with sink_flag := false } }, [])
        else
          ({ s with device_vector := s.device_vector.set device_number device.init },
           if r.address then
             match s.list[device_number]? with
             | some id => [Event.physClose id]
             | none => []
           else [])
      else (s, [])
    else (s, [])

/-- Modelled from the spec: the body of `device_handler::check_blocks` is in
the absent `device_handler.cc`; only its declaration (header line 131) is in
the header, with block types source = 1, sink = 2.  Spec attach(record, kind,
chipMode, fileBacking): precondition record exists and is open; attaching a
kind already attached is a logic error reported as `DoubleAttachError`
without overwriting the existing attachment; otherwise the flag, chip mode
and file backing are set, and if the other kind is attached with a different
chip mode a non-fatal `ModeConflictWarning` is raised - the attach still
succeeds. -/
def check_blocks (s : device_handler) (device_number : Nat) (block_type : Nat)
    (chip_mode : Int) (filename : String) : device_handler × List Event :=
  match s.device_vector[device_number]? with
  | none => (s, [])
  | some r =>
    if r.address = false then (s, [])
    else if block_type = 1 then
      if r.source_flag then (s, [Event.diag Diag.DoubleAttachError])
      else
        let r2 : device :=
          { r with source_flag := true, source_chip_mode := chip_mode,
                   source_filename := filename }
        ({ s with device_vector := s.device_vector.set device_number r2 },
         if r.sink_flag && !(r.sink_chip_mode == chip_mode) then
           [Event.diag Diag.ModeConflictWarning]
         else [])
    else if block_type = 2 then
      if r.sink_flag then (s, [Event.diag Diag.DoubleAttachError])
      else
        let r2 : device :=
          { r with sink_flag := true, sink_chip_mode := chip_mode,
                   sink_filename := filename }
        ({ s with device_vector := s.device_vector.set device_number r2 },
         if r.source_flag && !(r.source_chip_mode == chip_mode) then
           [Event.diag Diag.ModeConflictWarning]
         else [])
    else (s, [])

/-- Modelled from the spec: the discovery call (`LMS_GetDeviceList` into the
fixed buffer allocated at header line 63) happens in the absent
`device_handler.cc`.  Spec discover(): delegates to the external driver's
enumeration exactly once (guarded by `list_read`), caches the result, and
fails with `DiscoveryError` when enumeration fails.  The cached identifiers
are stored into the fixed 20-entry buffer of the header, so at most
`listBufferCapacity` of them fit; entries beyond the capacity do not.  The
enumeration result is the oracle `enum` (`none` = driver failure). -/
def discoverDevices (enum : Option (List String)) (s : device_handler) :
    device_handler × List Event :=
  if s.list_read then (s, [])
  else
    match enum with
    | none => (s, [Event.diag Diag.DiscoveryError])
    | some ids =>
      ({ s with list_read := true,
                list := ids.take listBufferCapacity,
                device_vector := (ids.take listBufferCapacity).map
                  (fun _ => device.init) },
       [])

/-- No open record is idle: every record whose physical handle is open holds
at least one attachment. -/
def noIdle (s : device_handler) : Prop :=
  ∀ r ∈ s.device_vector, r.address = true → (r.source_flag = true ∨ r.sink_flag = true)

instance (s : device_handler) : Decidable s.noIdle := by
  unfold noIdle; infer_instance

end device_handler

open device_handler

/-- An empty registry in its initial state. -/
def regInit : device_handler := {}

/-- A registry with one discovered device "AABB" whose record is not open. -/
def regDiscovered : device_handler :=
  { list_read := true, list := ["AABB"], device_vector := [device.init] }

/-- A record that is open with no attachments yet. -/
def recOpen : device := { address := true }

/-- A registry with one discovered device "AABB" whose record is open and
unattached. -/
def regOpen : device_handler :=
  { list_read := true, list := ["AABB"], device_vector := [recOpen] }

/-- A record that is open with a source attached in MIMO mode (chip mode 2). -/
def recSrc : device :=
  { address := true, source_flag := true, source_chip_mode := 2 }

/-- A registry with one discovered device "AABB" whose record is open with a
source attached in MIMO mode. -/
def regSrc : device_handler :=
  { list_read := true, list := ["AABB"], device_vector := [recSrc] }

/-- C1: a second `open_device` call with the same serial while the record is
still open returns the same record index, leaves the registry unchanged, and
produces no event at all - in particular it does not invoke the driver's
physical open primitive, whatever the driver oracle would answer. -/
theorem open_device_reuses_open_record (drv : String → Bool) (s : device_handler)
    (serial : String) (n : Nat) (r : device)
    (hn : s.findSerial serial = some n)
    (hr : s.device_vector[n]? = some r)
    (haddr : r.address = true) :
    open_device drv s serial = (OpenResult.ok n, s, []) := by
  simp [open_device, hn, hr, haddr]

/-- C1 witness: on a registry whose record for "AABB" is already open,
opening "AABB" again returns index 0, the unchanged registry and no event. -/
theorem open_device_reuses_open_record_witness :
    open_device (fun _ => true) regOpen "AABB" = (OpenResult.ok 0, regOpen, []) :=
  open_device_reuses_open_record (fun _ => true) regOpen "AABB" 0 recOpen
    (by decide) (by decide) (by decide)

/-- C8: detach (`close_device`) for an endpoint kind that is not currently
attached is a complete no-op: the registry is returned unchanged (so the
record's attachment count is unaltered and the record is not removed) and no
event is produced (so the physical handle is not closed). -/
theorem close_device_unattached_noop (s : device_handler) (n : Nat) (r : device)
    (hr : s.device_vector[n]? = some r) :
    (r.source_flag = false → close_device s n 1 = (s, [])) ∧
    (r.sink_flag = false → close_device s n 2 = (s, [])) := by
  constructor <;> intro h <;> simp [close_device, hr, h]

/-- C8 witness: on the registry whose only record has a source attached but
no sink, detaching the (never attached) sink changes nothing and emits no
event. -/
theorem close_device_unattached_noop_witness :
    close_device regSrc 0 2 = (regSrc, []) :=
  (close_device_unattached_noop regSrc 0 recSrc rfl).2 rfl

/-- C7: calling attach (`check_blocks`) a second time for an endpoint kind
that is already attached to the record reports a `DoubleAttachError`
diagnostic and leaves the registry unchanged - the existing attachment is not
overwritten. -/
theorem check_blocks_double_attach (s : device_handler) (n : Nat) (r : device)
    (m : Int) (fname : String)
    (hr : s.device_vector[n]? = some r) (haddr : r.address = true) :
    (r.source_flag = true →
      check_blocks s n 1 m fname = (s, [Event.diag Diag.DoubleAttachError])) ∧
    (r.sink_flag = true →
      check_blocks s n 2 m fname = (s, [Event.diag Diag.DoubleAttachError])) := by
  constructor <;> intro h <;> simp [check_blocks, hr, haddr, h]

/-- C7 witness: attaching a second source to the record that already has a
source attached reports `DoubleAttachError` and changes nothing. -/
theorem check_blocks_double_attach_witness :
    check_blocks regSrc 0 1 2 "" = (regSrc, [Event.diag Diag.DoubleAttachError]) :=
  (check_blocks_double_attach regSrc 0 recSrc 2 "" rfl rfl).1 rfl

/-- C6: attaching the other endpoint kind with a chip mode that conflicts
with the mode of the kind already attached succeeds - the attachment flag,
chip mode and file backing are set on the record - and the only diagnostic
raised is the non-fatal `ModeConflictWarning`; the attach is not rejected. -/
theorem check_blocks_mode_conflict_advisory (s : device_handler) (n : Nat)
    (r : device) (m : Int) (fname : String)
    (hr : s.device_vector[n]? = some r) (haddr : r.address = true) :
    (r.source_flag = true → r.sink_flag = false → m ≠ r.source_chip_mode →
      check_blocks s n 2 m fname =
        ({ s with device_vector := s.device_vector.set n { r with sink_flag := true, sink_chip_mode := m, sink_filename := fname } },
         [Event.diag Diag.ModeConflictWarning])) ∧
    (r.sink_flag = true → r.source_flag = false → m ≠ r.sink_chip_mode →
      check_blocks s n 1 m fname =
        ({ s with device_vector := s.device_vector.set n { r with source_flag := true, source_chip_mode := m, source_filename := fname } },
         [Event.diag Diag.ModeConflictWarning])) := by
  constructor <;> intro h1 h2 h3 <;>
    simp [check_blocks, hr, haddr, h1, h2, Ne.symm h3]

/-- C6 witness: with a source attached in MIMO mode (2), attaching a sink in
channel-A mode (0) succeeds, records the sink attachment with its mode, and
raises exactly one `ModeConflictWarning`. -/
theorem check_blocks_mode_conflict_advisory_witness :
    check_blocks regSrc 0 2 0 "" =
      ({ regSrc with device_vector := regSrc.device_vector.set 0 { recSrc with sink_flag := true, sink_chip_mode := 0, sink_filename := "" } },
       [Event.diag Diag.ModeConflictWarning]) :=
  (check_blocks_mode_conflict_advisory regSrc 0 recSrc 0 "" rfl rfl).1 rfl rfl
    (by decide)

/-- C3: for every open record and every endpoint kind attached to it,
detach (`close_device` with that block type) clears exactly that kind's flag
(the other kind's flag is unchanged), reduces the record's attachment count
by exactly one, and invokes the driver's physical close and removes the
record (the slot's handle is gone) if and only if the resulting attachment
count is zero. -/
theorem close_device_detach (s : device_handler) (n : Nat) (r : device)
    (id : String)
    (hr : s.device_vector[n]? = some r) (hid : s.list[n]? = some id)
    (haddr : r.address = true) :
    (r.source_flag = true →
      ∃ r2 : device, (close_device s n 1).1.device_vector[n]? = some r2 ∧
        r2.source_flag = false ∧ r2.sink_flag = r.sink_flag ∧
        r2.attachCount = r.attachCount - 1 ∧
        (close_device s n 1).2 =
          (if r2.attachCount = 0 then [Event.physClose id] else []) ∧
        (r2.address = false ↔ r2.attachCount = 0)) ∧
    (r.sink_flag = true →
      ∃ r2 : device, (close_device s n 2).1.device_vector[n]? = some r2 ∧
        r2.sink_flag = false ∧ r2.source_flag = r.source_flag ∧
        r2.attachCount = r.attachCount - 1 ∧
        (close_device s n 2).2 =
          (if r2.attachCount = 0 then [Event.physClose id] else []) ∧
        (r2.address = false ↔ r2.attachCount = 0)) := by
  have hlt : n < s.device_vector.length := by
    rcases List.getElem?_eq_some.mp hr with ⟨h, _⟩
    exact h
  constructor
  · intro hsrc
    by_cases hsink : r.sink_flag = true
    · refine ⟨{ r with source_flag := false }, ?_, rfl, rfl, ?_, ?_, ?_⟩
      · simp [close_device, hr, hsrc, hsink, List.getElem?_set_eq_of_lt _ hlt]
      · simp [device.attachCount, hsrc, hsink]
      · simp [close_device, hr, hsrc, hsink, device.attachCount]
      · simp [device.attachCount, hsink, haddr]
    · have hsink2 : r.sink_flag = false := by simpa using hsink
      refine ⟨device.init, ?_, rfl, ?_, ?_, ?_, ?_⟩
      · simp [close_device, hr, hsrc, hsink2, List.getElem?_set_eq_of_lt _ hlt]
      · simp [device.init, hsink2]
      · simp [device.init, device.attachCount, hsrc, hsink2]
      · simp [close_device, hr, hsrc, hsink2, hid, haddr, device.init,
              device.attachCount]
      · simp [device.init, device.attachCount]
  · intro hsink
    by_cases hsrc : r.source_flag = true
    · refine ⟨{ r with sink_flag := false }, ?_, rfl, rfl, ?_, ?_, ?_⟩
      · simp [close_device, hr, hsrc, hsink, List.getElem?_set_eq_of_lt _ hlt]
      · simp [device.attachCount, hsrc, hsink]
      · simp [close_device, hr, hsrc, hsink, device.attachCount]
      · simp [device.attachCount, hsrc, haddr]
    · have hsrc2 : r.source_flag = false := by simpa using hsrc
      refine ⟨device.init, ?_, rfl, ?_, ?_, ?_, ?_⟩
      · simp [close_device, hr, hsink, hsrc2, List.getElem?_set_eq_of_lt _ hlt]
      · simp [device.init, hsrc2]
      · simp [device.init, device.attachCount, hsink, hsrc2]
      · simp [close_device, hr, hsink, hsrc2, hid, haddr, device.init,
              device.attachCount]
      · simp [device.init, device.attachCount]

/-- C3 witness: detaching the source from the record whose only attachment
is the source clears the flag, brings the count from one to zero, and closes
and removes the record. -/
theorem close_device_detach_witness :
    ∃ r2 : device, (close_device regSrc 0 1).1.device_vector[0]? = some r2 ∧
      r2.source_flag = false ∧ r2.sink_flag = recSrc.sink_flag ∧
      r2.attachCount = recSrc.attachCount - 1 ∧
      (close_device regSrc 0 1).2 =
        (if r2.attachCount = 0 then [Event.physClose "AABB"] else []) ∧
      (r2.address = false ↔ r2.attachCount = 0) :=
  (close_device_detach regSrc 0 recSrc "AABB" rfl rfl rfl).1 rfl

/-- The trace of `closeEvents` contains exactly one physical-close event per
open record, provided the identifier list covers the record vector. -/
theorem closeEvents_length (rs : List device) (ids : List String)
    (h : rs.length ≤ ids.length) :
    (closeEvents ids rs).length = rs.countP (fun r => r.address) := by
  induction rs generalizing ids with
  | nil => cases ids <;> simp [closeEvents]
  | cons r rs ih =>
    cases ids with
    | nil => simp at h
    | cons id ids =>
      have h2 : rs.length ≤ ids.length := by simpa using h
      by_cases ha : r.address = true <;>
        simp [closeEvents, ha, ih ids h2, List.countP_cons]

/-- C4: when armed (`close_flag = false`), `close_all_devices` emits exactly
one physical close per open record - regardless of attachment state - and
leaves every record closed; the call disarms the guard, so an immediately
repeated invocation is a complete no-op, as is any call while disarmed; a
successful fresh `open_device` re-arms the guard (registry reuse). -/
theorem close_all_devices_closes_once (s : device_handler)
    (hlen : s.device_vector.length ≤ s.list.length) :
    (s.close_flag = false →
      (close_all_devices s).2.length = s.openCount ∧
      ∀ r ∈ (close_all_devices s).1.device_vector, r.address = false) ∧
    close_all_devices (close_all_devices s).1 = ((close_all_devices s).1, []) ∧
    (s.close_flag = true → close_all_devices s = (s, [])) ∧
    (∀ (drv : String → Bool) (serial : String) (n : Nat) (r : device),
      s.findSerial serial = some n → s.device_vector[n]? = some r →
      r.address = false → drv serial = true →
      (open_device drv s serial).2.1.close_flag = false) := by
  refine ⟨?_, ?_, ?_, ?_⟩
  · intro hcf
    constructor
    · simpa [close_all_devices, hcf, openCount] using
        closeEvents_length s.device_vector s.list hlen
    · intro x hx
      simp [close_all_devices, hcf] at hx
      rw [hx.2]
      rfl
  · by_cases hcf : s.close_flag = true <;> simp [close_all_devices, hcf]
  · intro hcf
    simp [close_all_devices, hcf]
  · intro drv serial n r hn hr hcl hdrv
    simp [open_device, hn, hr, hcl, hdrv]

/-- C4 witness: on the registry with one open record, close-all emits one
close event, and a second consecutive invocation is a no-op. -/
theorem close_all_devices_closes_once_witness :
    ((close_all_devices regSrc).2.length = regSrc.openCount ∧
      ∀ r ∈ (close_all_devices regSrc).1.device_vector, r.address = false) ∧
    close_all_devices (close_all_devices regSrc).1 =
      ((close_all_devices regSrc).1, []) :=
  ⟨(close_all_devices_closes_once regSrc (by decide)).1 rfl,
   (close_all_devices_closes_once regSrc (by decide)).2.1⟩

/-- A registry with two discovered devices: "AABB" open with a source
attached, "CCDD" not yet open. -/
def regTwo : device_handler :=
  { list_read := true, list := ["AABB", "CCDD"],
    device_vector := [recSrc, device.init] }

/-- C5: when the driver's open primitive fails during `open_device`, the
call reports `OpenError` and first performs the full close-all-devices
cleanup, so afterwards the registry holds zero open records - including any
previously open record for an unrelated identifier.  The hypothesis on
`close_flag` is the guard invariant: a disarmed registry holds no open
record. -/
theorem open_device_failure_cleanup (drv : String → Bool) (s : device_handler)
    (serial : String) (n : Nat) (r : device)
    (hn : s.findSerial serial = some n) (hr : s.device_vector[n]? = some r)
    (hclosed : r.address = false) (hdrv : drv serial = false)
    (hguard : s.close_flag = true → ∀ x ∈ s.device_vector, x.address = false) :
    (open_device drv s serial).1 = OpenResult.openError ∧
    (∀ x ∈ (open_device drv s serial).2.1.device_vector, x.address = false) ∧
    Event.diag Diag.OpenError ∈ (open_device drv s serial).2.2 := by
  have hopen : open_device drv s serial =
      (OpenResult.openError, (close_all_devices s).1,
       (close_all_devices s).2 ++ [Event.diag Diag.OpenError]) := by
    simp [open_device, hn, hr, hclosed, hdrv, error]
  rw [hopen]
  refine ⟨rfl, ?_, by simp⟩
  by_cases hcf : s.close_flag = true
  · intro x hx
    simp only [close_all_devices, hcf, if_pos] at hx
    exact hguard hcf x hx
  · intro x hx
    simp [close_all_devices, hcf] at hx
    rw [hx.2]
    rfl

/-- C5 witness: with "AABB" open and attached and "CCDD" merely discovered,
a failed driver open of "CCDD" yields `OpenError` and leaves no open record
at all - the unrelated "AABB" record is closed by the defensive cleanup. -/
theorem open_device_failure_cleanup_witness :
    (open_device (fun _ => false) regTwo "CCDD").1 = OpenResult.openError ∧
    (∀ x ∈ (open_device (fun _ => false) regTwo "CCDD").2.1.device_vector,
      x.address = false) ∧
    Event.diag Diag.OpenError ∈ (open_device (fun _ => false) regTwo "CCDD").2.2 :=
  open_device_failure_cleanup (fun _ => false) regTwo "CCDD" 1 device.init
    (by decide) (by decide) (by decide) rfl (by decide)

/-- C2 counterexample: opening the discovered device "AABB" creates a record
whose physical handle is open but whose source and sink attachment flags are
both false, and this record persists across a further registry operation (a
detach on a kind never attached) without being removed or closed - refuting
the claim that a record with both flags false never persists in the
registry. -/
theorem open_record_without_attachments_persists :
    ((close_device (open_device (fun _ => true) regDiscovered "AABB").2.1 0 2).1.device_vector.any
      (fun r => r.address && !r.source_flag && !r.sink_flag)) = true := by
  decide

/-- Setting one slot of a record vector preserves "every open record holds an
attachment", provided the new record itself satisfies it. -/
theorem allAttached_set (l : List device) (n : Nat) (x : device)
    (hl : ∀ r ∈ l, r.address = true → r.source_flag = true ∨ r.sink_flag = true)
    (hx : x.address = true → x.source_flag = true ∨ x.sink_flag = true) :
    ∀ r ∈ l.set n x, r.address = true → r.source_flag = true ∨ r.sink_flag = true := by
  intro r hr
  rcases List.mem_or_eq_of_mem_set hr with h | h
  · exact hl r h
  · rw [h]
    exact hx

/-- C2 amended: every record has attachment count 0, 1 or 2 (the two flags
admit at most one source and one sink attachment), and no operation other
than `open_device` creates or retains an open record with both attachment
flags false: detach, attach and close-all all preserve the property that
every open record holds at least one attachment - in particular a detach
that clears the last flag removes the record at once, closing its handle.  A
zero-attachment open record exists only as freshly opened, awaiting its
first attach. -/
theorem attachment_invariant_amended (s : device_handler) (n bt : Nat)
    (m : Int) (fname : String) :
    (∀ r : device, r.attachCount ≤ 2) ∧
    (s.noIdle → (close_device s n bt).1.noIdle) ∧
    (s.noIdle → (check_blocks s n bt m fname).1.noIdle) ∧
    (s.noIdle → (close_all_devices s).1.noIdle) := by
  refine ⟨?_, ?_, ?_, ?_⟩
  · intro r
    unfold device.attachCount
    by_cases h1 : r.source_flag <;> by_cases h2 : r.sink_flag <;> simp [h1, h2]
  · intro hno
    rcases hget : s.device_vector[n]? with _ | r
    · simpa [close_device, hget] using hno
    · by_cases hb1 : bt = 1
      · by_cases hsf : r.source_flag = true
        · by_cases hkf : r.sink_flag = true
          · simp only [close_device, hget, hb1, hsf, hkf, if_true]
            exact allAttached_set _ _ _ hno (fun _ => Or.inr rfl)
          · have hkf2 : r.sink_flag = false := by simpa using hkf
            simp [close_device, hget, hb1, hsf, hkf2]
            exact allAttached_set _ _ _ hno (fun h => by simp [device.init] at h)
        · have hsf2 : r.source_flag = false := by simpa using hsf
          simpa [close_device, hget, hb1, hsf2] using hno
      · by_cases hb2 : bt = 2
        · by_cases hkf : r.sink_flag = true
          · by_cases hsf : r.source_flag = true
            · simp [close_device, hget, hb1, hb2, hkf, hsf]
              exact allAttached_set _ _ _ hno (fun _ => Or.inl rfl)
            · have hsf2 : r.source_flag = false := by simpa using hsf
              simp [close_device, hget, hb1, hb2, hkf, hsf2]
              exact allAttached_set _ _ _ hno (fun h => by simp [device.init] at h)
          · have hkf2 : r.sink_flag = false := by simpa using hkf
            simpa [close_device, hget, hb1, hb2, hkf2] using hno
        · simpa [close_device, hget, hb1, hb2] using hno
  · intro hno
    rcases hget : s.device_vector[n]? with _ | r
    · simpa [check_blocks, hget] using hno
    · by_cases haddr : r.address = true
      · by_cases hb1 : bt = 1
        · by_cases hsf : r.source_flag = true
          · simpa [check_blocks, hget, haddr, hb1, hsf] using hno
          · have hsf2 : r.source_flag = false := by simpa using hsf
            simp [check_blocks, hget, haddr, hb1, hsf2]
            exact allAttached_set _ _ _ hno (fun _ => Or.inl rfl)
        · by_cases hb2 : bt = 2
          · by_cases hkf : r.sink_flag = true
            · simpa [check_blocks, hget, haddr, hb1, hb2, hkf] using hno
            · have hkf2 : r.sink_flag = false := by simpa using hkf
              simp [check_blocks, hget, haddr, hb1, hb2, hkf2]
              exact allAttached_set _ _ _ hno (fun _ => Or.inr rfl)
          · simpa [check_blocks, hget, haddr, hb1, hb2] using hno
      · have haddr2 : r.address = false := by simpa using haddr
        simpa [check_blocks, hget, haddr2] using hno
  · intro hno
    by_cases hcf : s.close_flag = true
    · simpa [close_all_devices, hcf] using hno
    · intro x hx h
      have hx2 : x ∈ s.device_vector.map (fun _ => device.init) := by
        simpa [close_all_devices, hcf] using hx
      rcases List.mem_map.mp hx2 with ⟨a, _, hax⟩
      rw [← hax] at h
      simp [device.init] at h

/-- C2 witness for the amended claim: the registry with one open, source
attached record satisfies the no-idle-record property, and a detach
preserves it. -/
theorem attachment_invariant_amended_witness :
    regSrc.noIdle ∧ (close_device regSrc 0 1).1.noIdle :=
  ⟨by decide, (attachment_invariant_amended regSrc 0 1 2 "").2.1 (by decide)⟩

/-- C10: the cached device list lives in the fixed 20-entry buffer allocated
at registry construction (header line 63), so discovery can retain at most
`listBufferCapacity = 20` identifiers: the stored list never exceeds the
capacity, an enumeration of at most 20 devices is stored in full, and an
enumeration reporting more than 20 devices exceeds the capacity - the stored
list is strictly shorter than the enumeration. -/
theorem discovery_list_capacity (ids : List String) (s : device_handler)
    (h : s.list_read = false) :
    (discoverDevices (some ids) s).1.list.length ≤ listBufferCapacity ∧
    (ids.length ≤ listBufferCapacity →
      (discoverDevices (some ids) s).1.list = ids) ∧
    (listBufferCapacity < ids.length →
      (discoverDevices (some ids) s).1.list.length < ids.length) := by
  refine ⟨?_, ?_, ?_⟩
  · simp [discoverDevices, h]
  · intro h2
    simp [discoverDevices, h]
    exact h2
  · intro h2
    simp [discoverDevices, h, List.length_take]
    omega

/-- C10 witness: an enumeration reporting 21 devices does not fit - the
freshly constructed registry stores strictly fewer identifiers than were
enumerated (namely the first 20). -/
theorem discovery_list_capacity_witness :
    regInit.list_read = false ∧
    (discoverDevices (some (List.replicate 21 "x")) regInit).1.list.length <
      (List.replicate 21 "x").length :=
  ⟨rfl, (discovery_list_capacity (List.replicate 21 "x") regInit rfl).2.2
    (by decide)⟩
